import Mathlib

/-!
Verification development for the Vectara financial-analysis dashboard
(`src/app.py`).  The file shallowly embeds the pieces of the program the
claims are about:

* the `VectaraClient` REST wrapper (`test_connection`, `upload_file`,
  `upload_file_v1`, `query`, `list_documents`) as total functions from a
  `RemoteOutcome` (the observable result of the single HTTP attempt the
  method makes: a transport exception, or a response with status code,
  parsed body and raw text) to the pair of values the Python method returns;
* the request-issuing behaviour of those methods and of the Streamlit UI
  flows that gate them on `st.session_state.connected`;
* the batch-upload loop of the upload tab;
* the regex metric extractor `extract_metrics_from_response`, embedded as a
  deterministic scanner over `List Char` that is faithful to Python
  `re.search` with `re.IGNORECASE` for the two pattern shapes the source
  builds, for metric names consisting of regex-literal characters and for
  ASCII text (the source interpolates the metric name into the pattern
  unescaped, so names containing regex metacharacters change the regex
  itself; those are treated separately).
-/

namespace VectaraApp

/-- A JSON value, as produced by `response.json()`.  `jnull` is the JSON
literal `null`, which `response.json()` turns into the Python value `None`. -/
inductive JsonVal where
  | jnull
  | jbool (b : Bool)
  | jnum (n : Int)
  | jstr (s : String)
  | jarr (xs : List JsonVal)
  | jobj (fields : List (String × JsonVal))

/-- The body of an HTTP response as seen through `response.json()`:
either a parsed JSON value, or `malformed msg` when the body is not valid
JSON and `response.json()` raises an exception carrying `msg`. -/
inductive BodyParse where
  | val (j : JsonVal)
  | malformed (msg : String)

/-- The observable outcome of the single HTTP attempt a client method makes:
`exn msg` when the transport layer (or any code inside the method's
`try` block) raises an exception whose string form is `msg`, and
`resp status body text` for a completed HTTP response with its status code,
its body as seen by `response.json()`, and its raw `response.text`. -/
inductive RemoteOutcome where
  | exn (msg : String)
  | resp (status : Nat) (body : BodyParse) (text : String)

/-- `response.json()` as a Python value: JSON `null` becomes Python `None`
(`Option.none`); every other JSON value is a non-`None` Python object. -/
def jsonAsPy : JsonVal → Option JsonVal
  | .jnull => none
  | j => some j

/-- `VectaraClient.test_connection` (src/app.py lines 42-59): the branch on
`response.status_code` in source order (200, 403, 401, 404, other), with the
`except` clause mapped to the `exn` constructor. -/
def test_connection : RemoteOutcome → Bool × String
  | .exn e => (false, "Connection error: " ++ e)
  | .resp s _ t =>
    if s = 200 then (true, "Connection successful!")
    else if s = 403 then (false, "403 Forbidden - Check your API key and permissions")
    else if s = 401 then (false, "401 Unauthorized - Invalid API key")
    else if s = 404 then (false, "404 Not Found - Invalid Corpus ID")
    else (false, "Error " ++ Nat.repr s ++ ": " ++ t)

/-- `VectaraClient.upload_file` (src/app.py lines 61-96), the multipart
(v2) upload strategy: success on 200/201, special branches for 403 and 401
only, generic pass-through otherwise, exceptions returned as a pair. -/
def upload_file (o : RemoteOutcome) (filename : String) : Bool × String :=
  match o with
  | .exn e => (false, "Error uploading " ++ filename ++ ": " ++ e)
  | .resp s _ t =>
    if s = 200 ∨ s = 201 then (true, "Successfully uploaded: " ++ filename)
    else if s = 403 then
      (false, "403 Forbidden - Check corpus permissions for uploads. Response: " ++ t)
    else if s = 401 then
      (false, "401 Unauthorized - Invalid API key. Response: " ++ t)
    else (false, "Upload failed (" ++ Nat.repr s ++ "): " ++ t)

/-- `VectaraClient.upload_file_v1` (src/app.py lines 98-141), the
structured-document (v1) upload strategy: success on 200/201, a special
branch for 403 only, generic pass-through otherwise.  Local exceptions
raised before the HTTP call (for example `int(customer_id)` on a
non-numeric id) are also caught by the same `except` clause and therefore
fall under the `exn` constructor. -/
def upload_file_v1 (o : RemoteOutcome) (filename : String) : Bool × String :=
  match o with
  | .exn e => (false, "Error uploading " ++ filename ++ ": " ++ e)
  | .resp s _ t =>
    if s = 200 ∨ s = 201 then (true, "Successfully uploaded: " ++ filename)
    else if s = 403 then
      (false, "403 Error - Your API key doesn\x27t have INDEX permission. Check API key settings in Vectara Console.")
    else (false, "Upload failed (" ++ Nat.repr s ++ "): " ++ t)

/-- `VectaraClient.query` (src/app.py lines 163-192): on 200 the parsed
JSON body is returned as the result (so a JSON `null` body yields Python
`None`), 403 gets a special message, every other status is passed through,
and exceptions (including a `response.json()` failure on a 200 response,
which is raised inside the same `try`) become the error component. -/
def query (o : RemoteOutcome) : Option JsonVal × Option String :=
  match o with
  | .exn e => (none, some ("Error querying: " ++ e))
  | .resp s b t =>
    if s = 200 then
      match b with
      | .val j => (jsonAsPy j, none)
      | .malformed m => (none, some ("Error querying: " ++ m))
    else if s = 403 then (none, some ("403 Forbidden - Check query permissions: " ++ t))
    else (none, some ("Query failed (" ++ Nat.repr s ++ "): " ++ t))

/-- `VectaraClient.list_documents` (src/app.py lines 194-206): only 200 is
treated specially; every non-200 status takes the single generic branch. -/
def list_documents (o : RemoteOutcome) : Option JsonVal × Option String :=
  match o with
  | .exn e => (none, some ("Error listing documents: " ++ e))
  | .resp s b t =>
    if s = 200 then
      match b with
      | .val j => (jsonAsPy j, none)
      | .malformed m => (none, some ("Error listing documents: " ++ m))
    else (none, some ("Failed to list documents (" ++ Nat.repr s ++ "): " ++ t))

/-- The credentials stored by `VectaraClient.__init__` (src/app.py lines
31-40).  The constructor stores only the credential strings (plus the
constant base URL and headers derived from them); in particular the class
has no field recording whether a connectivity check ever succeeded. -/
structure VectaraClientCfg where
  api_key : String
  customer_id : String
  corpus_id : String
deriving DecidableEq

/-- `self.base_url` as set in `VectaraClient.__init__`. -/
def base_url : String := "https://api.vectara.io/v2"

/-- An HTTP request attempt issued through the `requests` library,
identified by method and URL (headers and payload are not needed by any
claim and are omitted). -/
structure HttpCall where
  method : String
  url : String
deriving DecidableEq

/-- The HTTP attempts `test_connection` issues: exactly one GET,
unconditionally, before any branching on the response. -/
def test_connection_calls (c : VectaraClientCfg) : List HttpCall :=
  [⟨"GET", base_url ++ "/corpora/" ++ c.corpus_id⟩]

/-- The HTTP attempts `upload_file` issues: exactly one POST,
unconditionally — the method body performs no validation check of any kind
before calling `requests.post`. -/
def upload_file_calls (c : VectaraClientCfg) : List HttpCall :=
  [⟨"POST", base_url ++ "/corpora/" ++ c.corpus_id ++ "/upload_file"⟩]

/-- Python `int(s)` succeeds on `s` (modelled for plain decimal strings:
optional surrounding ASCII whitespace, an optional sign, then a nonempty
digit run; Python's underscore separators and Unicode digits are outside
the modelled input space). -/
def pyIntOk (s : String) : Bool :=
  let t := s.trim.data
  let t2 := match t with
            | c :: rest => if c == '+' || c == '-' then rest else t
            | [] => []
  !t2.isEmpty && t2.all (fun c => 48 ≤ c.toNat && c.toNat ≤ 57)

/-- The HTTP attempts `upload_file_v1` issues: one POST to the v1 index
endpoint, unless `int(self.customer_id)` or `int(self.corpus_id)` raises
first (those conversions run before `requests.post`). -/
def upload_file_v1_calls (c : VectaraClientCfg) : List HttpCall :=
  if pyIntOk c.customer_id && pyIntOk c.corpus_id then
    [⟨"POST", "https://api.vectara.io/v1/index"⟩]
  else []

/-- The HTTP attempts `query` issues: exactly one POST, unconditionally. -/
def query_calls (_c : VectaraClientCfg) : List HttpCall :=
  [⟨"POST", base_url ++ "/query"⟩]

/-- The HTTP attempts `list_documents` issues: exactly one GET,
unconditionally. -/
def list_documents_calls (c : VectaraClientCfg) : List HttpCall :=
  [⟨"GET", base_url ++ "/corpora/" ++ c.corpus_id ++ "/documents"⟩]

/-- The Streamlit session state keys the modelled flows touch
(src/app.py lines 17-25): the stored client, the accumulated file-name
list and the connected flag.  `chat_history` is not read by any modelled
flow and is omitted. -/
structure SessionState where
  vectara_client : Option VectaraClientCfg
  uploaded_files_list : List String
  connected : Bool

/-- The session state right after initialisation (src/app.py lines 17-25):
no client, no uploaded files, not connected. -/
def initialSessionState : SessionState :=
  { vectara_client := none, uploaded_files_list := [], connected := false }

/-- `initialize_vectara` (src/app.py lines 208-219): construct a client and
run `test_connection` on it; return the client only when the check
succeeds, otherwise the failure message. -/
def init_vectara (creds : VectaraClientCfg) (o : RemoteOutcome) :
    Option VectaraClientCfg × Option String :=
  let r := test_connection o
  if r.1 then (some creds, none) else (none, some r.2)

/-- The sidebar "Connect to Vectara" button (src/app.py lines 310-323),
given the outcome of the connectivity probe: the client is stored and the
connected flag set only when `initialize_vectara` returned a client; on
failure the session state is left unchanged. -/
def connectAction (σ : SessionState) (creds : VectaraClientCfg) (o : RemoteOutcome) :
    SessionState :=
  match init_vectara creds o with
  | (some c, _) => { σ with vectara_client := some c, connected := true }
  | (none, _) => σ

/-- The HTTP attempts the upload tab can issue for a pressed upload button
with the given files (src/app.py lines 357-409): none at all when the
session is not connected (the tab shows a warning and renders no upload
controls); otherwise one attempt per file via the selected strategy. -/
def uploadTabCalls (σ : SessionState) (useV1 : Bool) (files : List String) : List HttpCall :=
  if σ.connected then
    match σ.vectara_client with
    | some c =>
      files.foldr (fun _fn acc =>
        (if useV1 then upload_file_v1_calls c else upload_file_calls c) ++ acc) []
    | none => []
  else []

/-- The HTTP attempts the query tab can issue for a pressed search button
with the given question (src/app.py lines 417-454): none when the session
is not connected; one query POST when connected with a nonempty question. -/
def queryTabCalls (σ : SessionState) (questionText : String) : List HttpCall :=
  if σ.connected then
    match σ.vectara_client with
    | some c => if questionText.isEmpty then [] else query_calls c
    | none => []
  else []

/-- The HTTP attempts of the sidebar "View Corpus Documents" button
(src/app.py lines 328-343): the button is rendered only when the session
is connected and holds a client. -/
def sidebarListCalls (σ : SessionState) : List HttpCall :=
  if σ.connected then
    match σ.vectara_client with
    | some c => list_documents_calls c
    | none => []
  else []

/-- One iteration's strategy choice in the upload tab (src/app.py lines
393-397): the radio selection picks `upload_file_v1` or `upload_file`. -/
def uploadWith (useV1 : Bool) (o : RemoteOutcome) (filename : String) : Bool × String :=
  if useV1 then upload_file_v1 o filename else upload_file o filename

/-- The upload tab's batch loop (src/app.py lines 378-409), one list entry
per selected file together with the outcome of that file's upload attempt.
Returns the per-file `(success, message)` pairs in order, the final
`success_count`, and the updated `uploaded_files_list` (a successfully
uploaded name is appended when not already present). -/
def batchLoop (useV1 : Bool) :
    List (String × RemoteOutcome) → Nat → List String →
      List (Bool × String) × Nat × List String
  | [], count, uploaded => ([], count, uploaded)
  | (fn, o) :: rest, count, uploaded =>
    let r := uploadWith useV1 o fn
    let count2 := if r.1 then count + 1 else count
    let uploaded2 :=
      if r.1 && !(uploaded.contains fn) then uploaded ++ [fn] else uploaded
    let step := batchLoop useV1 rest count2 uploaded2
    (r :: step.1, step.2)

/-- The final status line the batch loop writes (src/app.py line 409). -/
def batchStatusLine (successCount totalFiles : Nat) : String :=
  "Upload complete! " ++ Nat.repr successCount ++ "/" ++ Nat.repr totalFiles ++
    " files uploaded successfully."

/-! ### The metric extractor (`extract_metrics_from_response`, src/app.py lines 221-247)

The source builds, for each requested metric name, the two pattern strings

  `{metric}\s*[:\-]?\s*\$?\s*(\d{1,3}(?:,\d{3})*(?:\.\d{2})?)`
  `{metric}\s*\(?\$?(\d{1,3}(?:,\d{3})*(?:\.\d{2})?)\)?`

and runs `re.search(pattern, combined_text, re.IGNORECASE)` on the
concatenation of the first five snippet texts, taking `group(1)` of the
first pattern that matches and stripping commas from it.

For a metric name made of regex-literal characters the pattern is the
case-insensitive literal name followed by a fixed tail, and `re.search` on
it is deterministic: every optional or starred element of the tail consumes
characters that can never begin the element that follows it (whitespace is
not `:`/`-`/`(`/`$`/a digit; `:`/`-`/`(` are not `$` or digits; `$` is not
a digit; a `,`-group needs a comma where a following group or the decimal
part would need a digit or a dot), so the greedy first choice of each
element is never backtracked, and the search returns the match at the
leftmost position where the whole pattern fits.  The scanner below
implements exactly that, on `List Char`, with ASCII semantics for `\s`,
`\d` and `re.IGNORECASE` (the claims' inputs are ASCII). -/

/-- ASCII lowering, the effect of `re.IGNORECASE` on ASCII letters. -/
def pyLowerN (c : Char) : Nat :=
  if 65 ≤ c.toNat && c.toNat ≤ 90 then c.toNat + 32 else c.toNat

/-- Case-insensitive character comparison (ASCII). -/
def charEqCI (a b : Char) : Bool := pyLowerN a == pyLowerN b

/-- Python `\s` on ASCII: space, tab, newline, vertical tab, form feed,
carriage return. -/
def isPySpace (c : Char) : Bool :=
  c == ' ' || c == '\t' || c == '\n' || c == '\r' || c.toNat == 11 || c.toNat == 12

/-- Python `\d` on ASCII: the decimal digits. -/
def isPyDigit (c : Char) : Bool := 48 ≤ c.toNat && c.toNat ≤ 57

/-- Match a literal pattern case-insensitively at the head of `s`,
returning the rest of `s` on success. -/
def matchLitCI : List Char → List Char → Option (List Char)
  | [], s => some s
  | _ :: _, [] => none
  | p :: ps, c :: cs => if charEqCI p c then matchLitCI ps cs else none

/-- `\s*`: drop the maximal run of whitespace. -/
def dropWs : List Char → List Char
  | [] => []
  | c :: cs => if isPySpace c then dropWs cs else c :: cs

/-- `[:\-]?`: drop one optional separator. -/
def dropOptSep : List Char → List Char
  | [] => []
  | c :: cs => if c == ':' || c == '-' then cs else c :: cs

/-- `x?` for a single literal character: drop one optional occurrence. -/
def dropOpt (target : Char) : List Char → List Char
  | [] => []
  | c :: cs => if c == target then cs else c :: cs

/-- `\d{1,3}` (and its sub-runs): greedily take up to `n` leading digits. -/
def takeDigitsN : Nat → List Char → List Char × List Char
  | 0, s => ([], s)
  | _ + 1, [] => ([], [])
  | n + 1, c :: cs =>
    if isPyDigit c then
      let step := takeDigitsN n cs
      (c :: step.1, step.2)
    else ([], c :: cs)

/-- `(?:,\d{3})*`: greedily take comma-plus-three-digit groups. -/
def commaGroups : List Char → List Char × List Char
  | ',' :: a :: b :: c :: rest =>
    if isPyDigit a && isPyDigit b && isPyDigit c then
      let step := commaGroups rest
      (',' :: a :: b :: c :: step.1, step.2)
    else ([], ',' :: a :: b :: c :: rest)
  | s => ([], s)

/-- `(?:\.\d{2})?`: an optional dot followed by exactly two digits. -/
def decPart : List Char → List Char × List Char
  | '.' :: a :: b :: rest =>
    if isPyDigit a && isPyDigit b then (['.', a, b], rest)
    else ([], '.' :: a :: b :: rest)
  | s => ([], s)

/-- The capture group `(\d{1,3}(?:,\d{3})*(?:\.\d{2})?)`: at least one
digit is required; the matched group text and the rest of the input. -/
def parseNum (s : List Char) : Option (List Char × List Char) :=
  let d := takeDigitsN 3 s
  if d.1.isEmpty then none
  else
    let g := commaGroups d.2
    let f := decPart g.2
    some (d.1 ++ g.1 ++ f.1, f.2)

/-- Try the first pattern at the head of `s`; on a match return the text of
capture group 1. -/
def tryPat1 (metric : List Char) (s : List Char) : Option (List Char) :=
  match matchLitCI metric s with
  | none => none
  | some r0 =>
    let r1 := dropWs r0
    let r2 := dropOptSep r1
    let r3 := dropWs r2
    let r4 := dropOpt '$' r3
    let r5 := dropWs r4
    match parseNum r5 with
    | some g => some g.1
    | none => none

/-- Try the second pattern at the head of `s` (the trailing `\)?` cannot
affect the capture group and is irrelevant to success). -/
def tryPat2 (metric : List Char) (s : List Char) : Option (List Char) :=
  match matchLitCI metric s with
  | none => none
  | some r0 =>
    let r1 := dropWs r0
    let r2 := dropOpt '(' r1
    let r3 := dropOpt '$' r2
    match parseNum r3 with
    | some g => some g.1
    | none => none

/-- `re.search`: try the pattern at every position left to right (including
the end-of-string position) and return the first match. -/
def searchAll (tryF : List Char → Option (List Char)) : List Char → Option (List Char)
  | [] => tryF []
  | c :: t =>
    match tryF (c :: t) with
    | some g => some g
    | none => searchAll tryF t

/-- `group(1).replace(",", "")`. -/
def stripCommas (l : List Char) : List Char := l.filter (fun c => c != ',')

/-- One search result dict in `response_data['search_results']`; only its
optional `'text'` entry is read by the extractor. -/
structure SearchSnippet where
  text : Option String

/-- The response dict as the extractor reads it: `search_results` is
`none` when the key is absent. -/
structure QueryResponseData where
  search_results : Option (List SearchSnippet)

/-- The buffer built from the first five snippets (src/app.py lines
229-232): a space followed by the snippet text, for each of the first five
results that carry a `'text'` key. -/
def combinedText (rs : List SearchSnippet) : List Char :=
  (rs.take 5).foldl
    (fun acc r => match r.text with
      | some t => acc ++ (' ' :: t.data)
      | none => acc) []

/-- The buffer the extractor scans for a given (possibly absent) response:
empty when `response_data` is `None` or lacks `'search_results'` (in the
source the pattern loop is then skipped entirely; scanning an empty buffer
is equivalent, as no pattern can match in it — see `metricValueIn_nil`). -/
def responseBuffer (resp : Option QueryResponseData) : List Char :=
  match resp with
  | some d =>
    match d.search_results with
    | some rs => combinedText rs
    | none => []
  | none => []

/-- The value recorded for one metric name: group 1 of the first pattern
that matches, commas stripped; the sentinel `"N/A"` otherwise. -/
def metricValueIn (buf : List Char) (metric : String) : String :=
  match searchAll (tryPat1 metric.data) buf with
  | some g => String.mk (stripCommas g)
  | none =>
    match searchAll (tryPat2 metric.data) buf with
    | some g => String.mk (stripCommas g)
    | none => "N/A"

/-- First-occurrence deduplication, the key order of a Python dict built by
comprehension and then updated at the same keys. -/
def dedupFirstAux (seen : List String) : List String → List String
  | [] => []
  | n :: t =>
    if seen.contains n then dedupFirstAux seen t
    else n :: dedupFirstAux (n :: seen) t

/-- The key list of the returned metrics dict, in insertion order. -/
def dedupFirst (names : List String) : List String := dedupFirstAux [] names

/-- The default `metric_names` (src/app.py line 224). -/
def defaultMetricNames : List String :=
  ["Revenue", "Net Profit", "Gross Profit", "Total Assets", "Total Liabilities"]

/-- `extract_metrics_from_response` (src/app.py lines 221-247) as the
returned dict, represented as its ordered key/value pairs.  When the
response is absent or lacks `'search_results'` every entry keeps its
initial `"N/A"`; otherwise each entry gets the value extracted from the
first-five-snippet buffer (for a duplicated name the loop recomputes the
same value at the same key, so first-occurrence deduplication is exact). -/
def extract_metrics_from_response (resp : Option QueryResponseData)
    (names : List String) : List (String × String) :=
  match resp with
  | none => (dedupFirst names).map (fun n => (n, "N/A"))
  | some d =>
    match d.search_results with
    | none => (dedupFirst names).map (fun n => (n, "N/A"))
    | some rs =>
      let buf := combinedText rs
      (dedupFirst names).map (fun n => (n, metricValueIn buf n))

/-! ### Metric names as regex fragments

The source interpolates the metric name into the pattern without
`re.escape`, so the name is matched literally only when it contains no
Python regex metacharacter.  For other names the name's characters become
regex syntax: an unbalanced parenthesis makes `re.search` raise
`re.error`, and a parenthesised name shifts `group(1)` onto the name's own
group. -/

/-- Python regex metacharacters (`.^$*+?{}[]\|()`); a character is
regex-literal iff it is none of these. -/
def pyRegexSpecial (c : Char) : Bool :=
  c == '.' || c == '^' || c == '$' || c == '*' || c == '+' || c == '?' ||
  c == '\\' || c == '|' || c == '(' || c == ')' || c == '[' || c == ']' ||
  c.toNat == 123 || c.toNat == 125

/-- A metric name that the built pattern matches as a literal string. -/
def regexLiteralName (s : String) : Bool := s.data.all (fun c => !pyRegexSpecial c)

/-- The fixed tail of the first pattern the source builds
(`\s*[:\-]?\s*\$?\s*(\d{1,3}(?:,\d{3})*(?:\.\d{2})?)`; braces written with
character escapes). -/
def pattern1Tail : String :=
  "\\s*[:\\-]?\\s*\\$?\\s*(\\d\x7b1,3\x7d(?:,\\d\x7b3\x7d)*(?:\\.\\d\x7b2\x7d)?)"

/-- The fixed tail of the second pattern
(`\s*\(?\$?(\d{1,3}(?:,\d{3})*(?:\.\d{2})?)\)?`). -/
def pattern2Tail : String :=
  "\\s*\\(?\\$?(\\d\x7b1,3\x7d(?:,\\d\x7b3\x7d)*(?:\\.\\d\x7b2\x7d)?)\\)?"

/-- The full first pattern string passed to `re.search` for a metric name
(src/app.py line 237). -/
def buildPattern1 (metric : String) : String := metric ++ pattern1Tail

/-- The full second pattern string (src/app.py line 238). -/
def buildPattern2 (metric : String) : String := metric ++ pattern2Tail

/-- Scan a regex pattern tracking unescaped group parentheses (a
backslash escapes the next character; inside a `[...]` class parentheses
are literal).  Returns `false` on a dangling escape, an unclosed class, a
`)` with no open group, or unclosed groups at the end — in each of those
cases the pattern is not valid Python regex syntax and `re.compile`
(hence `re.search`) raises `re.error`. -/
def parenScanAux : List Char → Nat → Bool → Bool
  | [], depth, inClass => !inClass && depth == 0
  | '\\' :: rest, depth, inClass =>
    match rest with
    | [] => false
    | _ :: r2 => parenScanAux r2 depth inClass
  | c :: rest, depth, inClass =>
    if inClass then
      if c == ']' then parenScanAux rest depth false
      else parenScanAux rest depth true
    else if c == '[' then parenScanAux rest depth true
    else if c == '(' then parenScanAux rest (depth + 1) false
    else if c == ')' then
      match depth with
      | 0 => false
      | d + 1 => parenScanAux rest d false
    else parenScanAux rest depth false

/-- Balanced-parenthesis well-formedness of a regex pattern string; a
necessary condition for `re.compile` to succeed. -/
def regexParensOk (s : String) : Bool := parenScanAux s.data 0 false

/-- `match.group(1)` of the first pattern built for the metric name
`"(Total)"`: the pattern is `(Total)\s*[:\-]?\s*\$?\s*(\d{1,3}...)`, a
valid regex whose group 1 is the name's own parenthesised group, so on a
match `group(1)` is the five characters matched by `Total` (not the
number).  This mirrors `tryPat1` with the capture moved. -/
def tryPat1GroupShiftTotal (s : List Char) : Option (List Char) :=
  match matchLitCI ("Total".data) s with
  | none => none
  | some r0 =>
    let r1 := dropWs r0
    let r2 := dropOptSep r1
    let r3 := dropWs r2
    let r4 := dropOpt '$' r3
    let r5 := dropWs r4
    match parseNum r5 with
    | some _ => some (s.take 5)
    | none => none

/-- The value the source records for metric name `"(Total)"`: the first
pattern is tried first and its `group(1)` (the text matched by the name's
own group) is comma-stripped; the second pattern, whose group 1 is shifted
the same way, is only reached when the first finds no match. -/
def extractValueForParenTotal (buf : List Char) : String :=
  match searchAll tryPat1GroupShiftTotal buf with
  | some g => String.mk (stripCommas g)
  | none =>
    match searchAll (fun s =>
      match matchLitCI ("Total".data) s with
      | none => none
      | some r0 =>
        let r1 := dropWs r0
        let r2 := dropOpt '(' r1
        let r3 := dropOpt '$' r2
        match parseNum r3 with
        | some _ => some (s.take 5)
        | none => none) buf with
    | some g => String.mk (stripCommas g)
    | none => "N/A"

/-! ### Shape and containment helpers used by the claims -/

/-- Exactly two digits (the decimal part after the dot of a well-shaped
extracted value). -/
def shapeDec : List Char → Bool
  | [a, b] => isPyDigit a && isPyDigit b
  | _ => false

/-- The tail of a well-shaped extracted value: digits, optionally ending
in a dot followed by exactly two digits. -/
def shapeTail : List Char → Bool
  | [] => true
  | c :: rest => if c == '.' then shapeDec rest else isPyDigit c && shapeTail rest

/-- A well-shaped extracted value: a nonempty digit run with an optional
two-digit decimal part and no separators. -/
def valueShape : List Char → Bool
  | [] => false
  | c :: rest => isPyDigit c && shapeTail rest

/-- Exact (case-sensitive) leading match. -/
def leadingEq : List Char → List Char → Bool
  | [], _ => true
  | _ :: _, [] => false
  | p :: ps, c :: cs => p == c && leadingEq ps cs

/-- Exact substring containment. -/
def containsSeq (pat : List Char) : List Char → Bool
  | [] => leadingEq pat []
  | c :: t => leadingEq pat (c :: t) || containsSeq pat t

/-- Case-insensitive substring containment, aligned with `searchAll`'s
position scan. -/
def containsCI (pat : List Char) : List Char → Bool
  | [] => (matchLitCI pat []).isSome
  | c :: t => (matchLitCI pat (c :: t)).isSome || containsCI pat t

/-- The extractor with the ambient session state threaded explicitly: the
body of `extract_metrics_from_response` reads and writes no module or
`st.session_state` variable, so its action on the ambient state is the
identity and its result depends only on its two arguments. -/
def extractCall (σ : SessionState) (resp : Option QueryResponseData)
    (names : List String) : List (String × String) × SessionState :=
  (extract_metrics_from_response resp names, σ)

/-! ### Helper lemmas -/

theorem mem_dedupFirstAux (l : List String) :
    ∀ (seen : List String) (x : String),
      x ∈ dedupFirstAux seen l ↔ (x ∈ l ∧ ¬ x ∈ seen) := by
  induction l with
  | nil => intro seen x; simp [dedupFirstAux]
  | cons n t ih =>
    intro seen x
    by_cases h : seen.contains n
    · have hn : n ∈ seen := by simpa using h
      rw [dedupFirstAux, if_pos h, ih]
      constructor
      · rintro ⟨hx, hs⟩; exact ⟨List.mem_cons_of_mem _ hx, hs⟩
      · rintro ⟨hx, hs⟩
        rcases List.mem_cons.mp hx with rfl | hx2
        · exact absurd hn hs
        · exact ⟨hx2, hs⟩
    · have hn : ¬ n ∈ seen := by simpa using h
      rw [dedupFirstAux, if_neg h]
      constructor
      · intro hx
        rcases List.mem_cons.mp hx with rfl | hx2
        · exact ⟨List.mem_cons_self _ _, hn⟩
        · rcases (ih (n :: seen) x).mp hx2 with ⟨hxt, hxs⟩
          exact ⟨List.mem_cons_of_mem _ hxt,
            fun hmem => hxs (List.mem_cons_of_mem _ hmem)⟩
      · rintro ⟨hx, hs⟩
        rcases List.mem_cons.mp hx with rfl | hx2
        · exact List.mem_cons_self _ _
        · by_cases hxn : x = n
          · subst hxn; exact List.mem_cons_self _ _
          · exact List.mem_cons_of_mem _ ((ih (n :: seen) x).mpr
              ⟨hx2, fun hmem => by
                rcases List.mem_cons.mp hmem with h1 | h1
                · exact hxn h1
                · exact hs h1⟩)

theorem mem_dedupFirst (l : List String) (x : String) :
    x ∈ dedupFirst l ↔ x ∈ l := by
  rw [dedupFirst, mem_dedupFirstAux]; simp

theorem tryPat1_nil (m : List Char) : tryPat1 m [] = none := by
  cases m with
  | nil => rfl
  | cons p ps => rfl

theorem tryPat2_nil (m : List Char) : tryPat2 m [] = none := by
  cases m with
  | nil => rfl
  | cons p ps => rfl

theorem metricValueIn_nil (n : String) : metricValueIn [] n = "N/A" := by
  simp [metricValueIn, searchAll, tryPat1_nil, tryPat2_nil]

theorem extract_eq_map (resp : Option QueryResponseData) (names : List String) :
    extract_metrics_from_response resp names
      = (dedupFirst names).map (fun n => (n, metricValueIn (responseBuffer resp) n)) := by
  cases resp with
  | none =>
    simp only [extract_metrics_from_response, responseBuffer]
    exact List.map_congr_left (fun n _ => by rw [metricValueIn_nil])
  | some d =>
    cases h : d.search_results with
    | none =>
      simp only [extract_metrics_from_response, responseBuffer, h]
      exact List.map_congr_left (fun n _ => by rw [metricValueIn_nil])
    | some rs =>
      simp [extract_metrics_from_response, responseBuffer, h]

theorem takeDigitsN_all (n : Nat) :
    ∀ s : List Char, ((takeDigitsN n s).1).all isPyDigit = true := by
  induction n with
  | zero => intro s; simp [takeDigitsN]
  | succ n ih =>
    intro s
    cases s with
    | nil => simp [takeDigitsN]
    | cons c cs =>
      by_cases h : isPyDigit c
      · simp [takeDigitsN, h, ih cs]
      · simp [takeDigitsN, h]

theorem commaGroups_all_bounded :
    ∀ (n : Nat) (s : List Char), s.length ≤ n →
      ((commaGroups s).1).all (fun c => c == ',' || isPyDigit c) = true := by
  intro n
  induction n with
  | zero =>
    intro s hs
    have : s = [] := List.eq_nil_of_length_eq_zero (Nat.le_zero.mp hs)
    subst this
    rfl
  | succ n ih =>
    intro s hs
    rw [commaGroups.eq_def]
    split
    · rename_i a b c rest
      by_cases h : (isPyDigit a && isPyDigit b && isPyDigit c) = true
      · rw [if_pos h]
        simp only [Bool.and_eq_true] at h
        have hrest : rest.length ≤ n := by
          simp only [List.length_cons] at hs
          omega
        have hr := ih rest hrest
        simp [List.all_cons, h.1.1, h.1.2, h.2, hr]
      · rw [if_neg h]
        rfl
    · rfl

theorem commaGroups_all (s : List Char) :
    ((commaGroups s).1).all (fun c => c == ',' || isPyDigit c) = true :=
  commaGroups_all_bounded s.length s le_rfl

theorem decPart_shape (s : List Char) :
    (decPart s).1 = [] ∨
      ∃ a b, (decPart s).1 = ['.', a, b] ∧ isPyDigit a = true ∧ isPyDigit b = true := by
  rw [decPart.eq_def]
  split
  · rename_i a b rest
    by_cases h : isPyDigit a && isPyDigit b
    · right
      refine ⟨a, b, ?_, ?_, ?_⟩ <;> simp_all
    · left; simp [h]
  · left; rfl

theorem digit_ne_comma {c : Char} (h : isPyDigit c = true) : (c != ',') = true := by
  simp only [bne_iff_ne, ne_eq]
  intro he
  subst he
  simp [isPyDigit] at h

theorem digit_ne_dot {c : Char} (h : isPyDigit c = true) : (c == '.') = false := by
  by_contra hc
  have : c = '.' := by
    have := Bool.not_eq_false _ |>.mp hc
    exact eq_of_beq this
  subst this
  simp [isPyDigit] at h

theorem stripCommas_of_digits {l : List Char} (h : l.all isPyDigit = true) :
    stripCommas l = l := by
  rw [stripCommas, List.filter_eq_self]
  intro a ha
  exact digit_ne_comma (by
    have := List.all_eq_true.mp h a ha
    simpa using this)

theorem stripCommas_all_digits {l : List Char}
    (h : l.all (fun c => c == ',' || isPyDigit c) = true) :
    (stripCommas l).all isPyDigit = true := by
  rw [List.all_eq_true]
  intro a ha
  rcases List.mem_filter.mp ha with ⟨hmem, hne⟩
  have hor : (a == ',' || isPyDigit a) = true := List.all_eq_true.mp h a hmem
  rcases (Bool.or_eq_true _ _).mp hor with h1 | h1
  · exact absurd (show a = ',' by simpa using h1) (by simpa using hne)
  · exact h1

theorem shapeTail_append {l : List Char} (h : l.all isPyDigit = true) (t : List Char) :
    shapeTail (l ++ t) = shapeTail t := by
  induction l with
  | nil => rfl
  | cons c l' ih =>
    have hc : isPyDigit c = true := by
      have := List.all_eq_true.mp h c (List.mem_cons_self _ _)
      simpa using this
    have h' : l'.all isPyDigit = true := by
      rw [List.all_eq_true]
      intro a ha
      exact List.all_eq_true.mp h a (List.mem_cons_of_mem _ ha)
    rw [List.cons_append, shapeTail, if_neg (by simp [digit_ne_dot hc]), hc, ih h']
    simp

theorem shapeTail_decPart (s : List Char) : shapeTail ((decPart s).1) = true := by
  rcases decPart_shape s with h | ⟨a, b, h, ha, hb⟩
  · rw [h]; rfl
  · rw [h, shapeTail]
    rw [if_pos (by simp)]
    simp [shapeDec, ha, hb]

theorem stripCommas_decPart (s : List Char) :
    stripCommas ((decPart s).1) = (decPart s).1 := by
  rw [stripCommas, List.filter_eq_self]
  intro a ha
  rcases decPart_shape s with hh | ⟨x, y, hh, hx, hy⟩
  · rw [hh] at ha; cases ha
  · rw [hh] at ha
    rcases List.mem_cons.mp ha with rfl | ha2
    · decide
    · rcases List.mem_cons.mp ha2 with rfl | ha3
      · exact digit_ne_comma hx
      · rcases List.mem_cons.mp ha3 with rfl | ha4
        · exact digit_ne_comma hy
        · cases ha4

theorem parseNum_shape {s g r : List Char} (h : parseNum s = some (g, r)) :
    valueShape (stripCommas g) = true := by
  rw [parseNum] at h
  by_cases hd : ((takeDigitsN 3 s).1).isEmpty
  · rw [if_pos hd] at h; cases h
  · rw [if_neg hd] at h
    simp only [Option.some.injEq, Prod.mk.injEq] at h
    obtain ⟨hg, -⟩ := h
    rw [← hg]
    have hdig : ((takeDigitsN 3 s).1).all isPyDigit = true := takeDigitsN_all 3 s
    have hcg := commaGroups_all ((takeDigitsN 3 s).2)
    obtain ⟨c, ds, hds⟩ : ∃ c ds, (takeDigitsN 3 s).1 = c :: ds := by
      cases hcase : (takeDigitsN 3 s).1 with
      | nil => rw [hcase] at hd; simp at hd
      | cons c ds => exact ⟨c, ds, rfl⟩
    rw [hds] at hdig
    have hc : isPyDigit c = true := by
      have := List.all_eq_true.mp hdig c (List.mem_cons_self _ _)
      simpa using this
    have hds' : ds.all isPyDigit = true := by
      rw [List.all_eq_true]
      intro a ha
      exact List.all_eq_true.mp hdig a (List.mem_cons_of_mem _ ha)
    rw [hds]
    have hsplit : stripCommas ((c :: ds) ++ (commaGroups (takeDigitsN 3 s).2).1
        ++ (decPart (commaGroups (takeDigitsN 3 s).2).2).1)
        = c :: (ds ++ (stripCommas ((commaGroups (takeDigitsN 3 s).2).1)
          ++ (decPart (commaGroups (takeDigitsN 3 s).2).2).1)) := by
      simp only [stripCommas, List.filter_append]
      rw [show List.filter (fun c => c != ',') (c :: ds)
            = stripCommas (c :: ds) from rfl,
          stripCommas_of_digits (show (c :: ds).all isPyDigit = true from by
            simp [List.all_cons, hc, hds']),
          show List.filter (fun c => c != ',')
            ((decPart (commaGroups (takeDigitsN 3 s).2).2).1)
            = stripCommas ((decPart (commaGroups (takeDigitsN 3 s).2).2).1) from rfl,
          stripCommas_decPart]
      simp [List.cons_append, List.append_assoc]
    rw [hsplit, valueShape, hc]
    simp only [Bool.true_and]
    rw [shapeTail_append hds', shapeTail_append (stripCommas_all_digits hcg)]
    exact shapeTail_decPart _

theorem tryPat1_some {m s g : List Char} (h : tryPat1 m s = some g) :
    (∃ s5 r, parseNum s5 = some (g, r)) ∧ (matchLitCI m s).isSome = true := by
  rw [tryPat1] at h
  cases hm : matchLitCI m s with
  | none => rw [hm] at h; cases h
  | some r0 =>
    rw [hm] at h
    simp only at h
    constructor
    · cases hp : parseNum (dropWs (dropOpt '$' (dropWs (dropOptSep (dropWs r0))))) with
      | none => rw [hp] at h; cases h
      | some p =>
        rw [hp] at h
        simp only [Option.some.injEq] at h
        exact ⟨_, p.2, by rw [hp, ← h]⟩
    · rfl

theorem tryPat2_some {m s g : List Char} (h : tryPat2 m s = some g) :
    (∃ s3 r, parseNum s3 = some (g, r)) ∧ (matchLitCI m s).isSome = true := by
  rw [tryPat2] at h
  cases hm : matchLitCI m s with
  | none => rw [hm] at h; cases h
  | some r0 =>
    rw [hm] at h
    simp only at h
    constructor
    · cases hp : parseNum (dropOpt '$' (dropOpt '(' (dropWs r0))) with
      | none => rw [hp] at h; cases h
      | some p =>
        rw [hp] at h
        simp only [Option.some.injEq] at h
        exact ⟨_, p.2, by rw [hp, ← h]⟩
    · rfl

theorem tryPat1_none_of_lit {m s : List Char} (h : matchLitCI m s = none) :
    tryPat1 m s = none := by
  rw [tryPat1, h]

theorem searchAll_shape (tryF : List Char → Option (List Char))
    (hshape : ∀ s g, tryF s = some g → ∃ s' r, parseNum s' = some (g, r)) :
    ∀ s g, searchAll tryF s = some g → ∃ s' r, parseNum s' = some (g, r) := by
  intro s
  induction s with
  | nil => intro g h; exact hshape [] g h
  | cons c t ih =>
    intro g h
    rw [searchAll] at h
    cases htry : tryF (c :: t) with
    | some g2 =>
      rw [htry] at h
      cases h
      exact hshape _ _ htry
    | none =>
      rw [htry] at h
      exact ih g h

theorem containsCI_of_searchAll (m : List Char) (tryF : List Char → Option (List Char))
    (hlit : ∀ s g, tryF s = some g → (matchLitCI m s).isSome = true) :
    ∀ s g, searchAll tryF s = some g → containsCI m s = true := by
  intro s
  induction s with
  | nil =>
    intro g h
    rw [searchAll] at h
    rw [containsCI]
    exact hlit [] g h
  | cons c t ih =>
    intro g h
    rw [searchAll] at h
    rw [containsCI]
    cases htry : tryF (c :: t) with
    | some g2 =>
      rw [hlit (c :: t) g2 htry]
      rfl
    | none =>
      rw [htry] at h
      rw [ih g h]
      simp

theorem searchAll_append_none (tryF : List Char → Option (List Char)) :
    ∀ (pre rest : List Char),
      (∀ p, p < pre.length → tryF (List.drop p (pre ++ rest)) = none) →
      searchAll tryF (pre ++ rest) = searchAll tryF rest := by
  intro pre
  induction pre with
  | nil => intro rest _; rfl
  | cons c pre' ih =>
    intro rest h
    have h0 : tryF (c :: (pre' ++ rest)) = none := by
      have := h 0 (by simp)
      simpa using this
    rw [List.cons_append, searchAll, h0]
    exact ih rest (fun p hp => by
      have := h (p + 1) (by simpa using Nat.succ_lt_succ hp)
      simpa [List.drop_succ_cons] using this)

/-! ### Claim C1 -/

/-- C1 counterexample: the claim "every remote-facing operation classifies
all of 401/403/404 with a category-naming message" is false at `query` with
status 401 (and at `list_documents` with status 404): the code reaches the
generic pass-through branch, whose message carries the raw status code and
server text but names no category — it contains neither "unauthorized" nor
"not found" in any capitalisation. -/
theorem C1_counterexample :
    query (.resp 401 (.val .jnull) "") = (none, some "Query failed (401): ")
    ∧ containsCI ("unauthorized".data) (("Query failed (401): ").data) = false
    ∧ list_documents (.resp 404 (.val .jnull) "")
        = (none, some "Failed to list documents (404): ")
    ∧ containsCI ("not found".data) (("Failed to list documents (404): ").data) = false := by
  refine ⟨rfl, by decide, rfl, by decide⟩

/-- C1 (amended): `test_connection` classifies 401, 403 and 404 with
category-naming messages; the multipart `upload_file` classifies 401 and
403 but passes 404 through generically; `upload_file_v1` and `query`
classify only 403; `list_documents` classifies none of the three; and
every status outside an operation's classified set is passed through with
the raw status code and the server-provided detail text. -/
theorem C1_amended_classification (s : Nat) (b : BodyParse) (t fn : String)
    (h200 : s ≠ 200) (h201 : s ≠ 201) (h401 : s ≠ 401) (h403 : s ≠ 403) (h404 : s ≠ 404) :
    (test_connection (.resp 401 b t) = (false, "401 Unauthorized - Invalid API key")
      ∧ test_connection (.resp 403 b t)
          = (false, "403 Forbidden - Check your API key and permissions")
      ∧ test_connection (.resp 404 b t) = (false, "404 Not Found - Invalid Corpus ID"))
    ∧ (upload_file (.resp 401 b t) fn
          = (false, "401 Unauthorized - Invalid API key. Response: " ++ t)
      ∧ upload_file (.resp 403 b t) fn
          = (false, "403 Forbidden - Check corpus permissions for uploads. Response: " ++ t)
      ∧ upload_file (.resp 404 b t) fn = (false, "Upload failed (404): " ++ t))
    ∧ (upload_file_v1 (.resp 403 b t) fn
          = (false, "403 Error - Your API key doesn\x27t have INDEX permission. Check API key settings in Vectara Console.")
      ∧ upload_file_v1 (.resp 401 b t) fn = (false, "Upload failed (401): " ++ t)
      ∧ upload_file_v1 (.resp 404 b t) fn = (false, "Upload failed (404): " ++ t))
    ∧ (query (.resp 403 b t) = (none, some ("403 Forbidden - Check query permissions: " ++ t))
      ∧ query (.resp 401 b t) = (none, some ("Query failed (401): " ++ t))
      ∧ query (.resp 404 b t) = (none, some ("Query failed (404): " ++ t)))
    ∧ (list_documents (.resp 401 b t) = (none, some ("Failed to list documents (401): " ++ t))
      ∧ list_documents (.resp 403 b t) = (none, some ("Failed to list documents (403): " ++ t))
      ∧ list_documents (.resp 404 b t) = (none, some ("Failed to list documents (404): " ++ t)))
    ∧ (test_connection (.resp s b t) = (false, "Error " ++ Nat.repr s ++ ": " ++ t)
      ∧ upload_file (.resp s b t) fn = (false, "Upload failed (" ++ Nat.repr s ++ "): " ++ t)
      ∧ upload_file_v1 (.resp s b t) fn = (false, "Upload failed (" ++ Nat.repr s ++ "): " ++ t)
      ∧ query (.resp s b t) = (none, some ("Query failed (" ++ Nat.repr s ++ "): " ++ t))
      ∧ list_documents (.resp s b t)
          = (none, some ("Failed to list documents (" ++ Nat.repr s ++ "): " ++ t))) := by
  refine ⟨⟨rfl, rfl, rfl⟩, ⟨rfl, rfl, rfl⟩, ⟨rfl, rfl, rfl⟩, ⟨rfl, rfl, rfl⟩,
    ⟨rfl, rfl, rfl⟩, ?_, ?_, ?_, ?_, ?_⟩
  · simp [test_connection, h200, h403, h401, h404]
  · simp [upload_file, h200, h201, h403, h401]
  · simp [upload_file_v1, h200, h201, h403]
  · simp [query, h200, h403]
  · simp [list_documents, h200]

/-- C1 witness: the amended classification at status 500 with concrete
body, text and filename. -/
theorem C1_amended_classification_witness :
    query (.resp 500 (.val .jnull) "detail")
        = (none, some ("Query failed (" ++ Nat.repr 500 ++ "): " ++ "detail"))
    ∧ test_connection (.resp 500 (.val .jnull) "detail")
        = (false, "Error " ++ Nat.repr 500 ++ ": " ++ "detail") := by
  have h := C1_amended_classification 500 (.val .jnull) "detail" "report.pdf"
    (by decide) (by decide) (by decide) (by decide) (by decide)
  exact ⟨h.2.2.2.2.2.2.2.2.1, h.2.2.2.2.2.1⟩

/-! ### Claim C2 -/

/-- C2 counterexample: the claim "operations on a never-validated client
fail fast without issuing any call" is false: `VectaraClient` stores no
validation state at all (see `VectaraClientCfg`), and `upload_file` posts
to the upload endpoint unconditionally, so a freshly constructed client
that never passed (or ran) `test_connection` still issues exactly one
remote call on upload. -/
theorem C2_counterexample :
    upload_file_calls ⟨"zut_key", "12345", "corp_7"⟩
        = [⟨"POST", "https://api.vectara.io/v2/corpora/corp_7/upload_file"⟩]
    ∧ upload_file_calls ⟨"zut_key", "12345", "corp_7"⟩ ≠ [] := by
  exact ⟨rfl, by decide⟩

/-- C2 (amended): the client methods themselves never fail fast — each
issues its remote call unconditionally — but the UI layer enforces the
invariant: with `connected = false` the upload tab, the query tab and the
sidebar document listing issue no remote calls, the initial session state
is disconnected, and the connect action sets `connected` exactly when
`test_connection` succeeded. -/
theorem C2_amended_ui_gating (σ : SessionState) (useV1 : Bool) (files : List String)
    (q : String) (creds : VectaraClientCfg) (o : RemoteOutcome)
    (h : σ.connected = false) :
    uploadTabCalls σ useV1 files = []
    ∧ queryTabCalls σ q = []
    ∧ sidebarListCalls σ = []
    ∧ initialSessionState.connected = false
    ∧ ((connectAction σ creds o).connected = true ↔ (test_connection o).1 = true)
    ∧ (∀ c : VectaraClientCfg, upload_file_calls c ≠ [] ∧ query_calls c ≠ []
        ∧ list_documents_calls c ≠ []) := by
  refine ⟨?_, ?_, ?_, rfl, ?_, ?_⟩
  · simp [uploadTabCalls, h]
  · simp [queryTabCalls, h]
  · simp [sidebarListCalls, h]
  · by_cases ht : (test_connection o).1 = true
    · simp [connectAction, init_vectara, ht]
    · simp [connectAction, init_vectara, ht, h]
  · intro c
    exact ⟨by simp [upload_file_calls], by simp [query_calls], by simp [list_documents_calls]⟩

/-- C2 witness: the gating at the initial (disconnected) session state. -/
theorem C2_amended_ui_gating_witness :
    uploadTabCalls initialSessionState false ["a.pdf", "b.pdf"] = []
    ∧ queryTabCalls initialSessionState "what is the revenue" = []
    ∧ ((connectAction initialSessionState ⟨"k", "1", "2"⟩
          (.resp 403 (.val .jnull) "")).connected = true
        ↔ (test_connection (.resp 403 (.val .jnull) "")).1 = true) := by
  have h := C2_amended_ui_gating initialSessionState false ["a.pdf", "b.pdf"]
    "what is the revenue" ⟨"k", "1", "2"⟩ (.resp 403 (.val .jnull) "") rfl
  exact ⟨h.1, h.2.1, h.2.2.2.2.1⟩

/-! ### Claim C3 -/

/-- C3 counterexample: the claim "any snippet set whose first-five-snippet
buffer contains `Revenue: $1,234.56` extracts `1234.56` for `Revenue`" is
false: `re.search` returns the leftmost match, so a buffer that also
contains an earlier occurrence of the label followed by a number — here
`Revenue 7` — yields `"7"` even though `Revenue: $1,234.56` is present. -/
theorem C3_counterexample :
    containsSeq ("Revenue: $1,234.56".data)
        (responseBuffer (some ⟨some [⟨some "Revenue 7 and Revenue: $1,234.56"⟩]⟩)) = true
    ∧ extract_metrics_from_response
        (some ⟨some [⟨some "Revenue 7 and Revenue: $1,234.56"⟩]⟩) ["Revenue"]
        = [("Revenue", "7")]
    ∧ ("7" : String) ≠ "1234.56" := by
  refine ⟨by decide, by decide, by decide⟩

/-- C3 (amended): the round trip holds when the occurrence of
`Revenue: $1,234.56` is the buffer's first case-insensitive occurrence of
the label `Revenue`: for any prefix in which the label does not occur (at
any position of the buffer before the embedded text) and any suffix,
extraction maps `Revenue` to `1234.56` — the thousands separator is
stripped and the currency marker dropped. -/
theorem C3_amended_roundtrip (pre suf : List Char)
    (h : ∀ p, p < pre.length + 1 →
      matchLitCI ("Revenue".data)
        (List.drop p ((' ' :: pre) ++ (("Revenue: $1,234.56".data) ++ suf))) = none) :
    extract_metrics_from_response
        (some ⟨some [⟨some (String.mk (pre ++ ("Revenue: $1,234.56".data) ++ suf))⟩]⟩)
        ["Revenue"]
      = [("Revenue", "1234.56")] := by
  rw [extract_eq_map]
  have hbuf : responseBuffer
      (some ⟨some [⟨some (String.mk (pre ++ ("Revenue: $1,234.56".data) ++ suf))⟩]⟩)
      = (' ' :: pre) ++ (("Revenue: $1,234.56".data) ++ suf) := by
    simp [responseBuffer, combinedText, List.append_assoc]
  rw [hbuf]
  have hs : searchAll (tryPat1 ("Revenue".data))
      ((' ' :: pre) ++ (("Revenue: $1,234.56".data) ++ suf)) = some ("1,234.56".data) := by
    rw [searchAll_append_none (tryPat1 ("Revenue".data)) (' ' :: pre) _
      (fun p hp => tryPat1_none_of_lit (h p (by simpa using hp)))]
    rw [show ("Revenue: $1,234.56".data) ++ suf
        = 'R' :: (("evenue: $1,234.56".data) ++ suf) from rfl]
    rw [searchAll]
    rw [show tryPat1 ("Revenue".data) ('R' :: (("evenue: $1,234.56".data) ++ suf))
        = some ("1,234.56".data) from rfl]
  have hv : metricValueIn ((' ' :: pre) ++ (("Revenue: $1,234.56".data) ++ suf)) "Revenue"
      = "1234.56" := by
    rw [metricValueIn, hs]
    rfl
  rw [show dedupFirst ["Revenue"] = ["Revenue"] from rfl]
  rw [List.map_cons, List.map_nil, hv]

/-- C3 witness: the amended round trip at the empty prefix and suffix,
which is exactly the spec's example snippet. -/
theorem C3_amended_roundtrip_witness :
    extract_metrics_from_response
        (some ⟨some [⟨some (String.mk ([] ++ ("Revenue: $1,234.56".data) ++ []))⟩]⟩)
        ["Revenue"]
      = [("Revenue", "1234.56")] :=
  C3_amended_roundtrip [] [] (by decide)

/-! ### Claim C4 -/

/-- C4 counterexample: the claim "extract never raises an exception for any
metric name (including names containing regex metacharacters)" is false:
the source interpolates the name into the pattern without `re.escape`
(src/app.py lines 237-238), so for the name `"("` both built pattern
strings have an unmatched group parenthesis and are not valid Python regex
syntax — `re.search` then raises `re.error` ("missing ), unterminated
subpattern") instead of returning, and the call never produces a mapping. -/
theorem C4_counterexample :
    buildPattern1 "("
        = "(\\s*[:\\-]?\\s*\\$?\\s*(\\d\x7b1,3\x7d(?:,\\d\x7b3\x7d)*(?:\\.\\d\x7b2\x7d)?)"
    ∧ regexParensOk (buildPattern1 "(") = false
    ∧ regexParensOk (buildPattern2 "(") = false
    ∧ regexParensOk (buildPattern1 "Revenue") = true
    ∧ regexLiteralName "(" = false := by
  refine ⟨rfl, by decide, by decide, by decide, by decide⟩

/-- C4 (amended): for every metric name made of regex-literal characters
(no Python regex metacharacters — the domain on which the built pattern
matches the name literally and no exception is possible): if neither
pattern matches the buffer the metric maps to the sentinel `"N/A"` (the
spec's "not available" sentinel), a non-sentinel value is only ever
recorded at a match that begins with the metric's own label text (so the
buffer contains the label case-insensitively — never an unrelated number
lacking the label), and the metric's entry is present in the returned
mapping whenever the name was requested. -/
theorem C4_amended_literal_safety (resp : Option QueryResponseData) (metric : String)
    (hlit : regexLiteralName metric = true) :
    (searchAll (tryPat1 metric.data) (responseBuffer resp) = none →
      searchAll (tryPat2 metric.data) (responseBuffer resp) = none →
      metricValueIn (responseBuffer resp) metric = "N/A")
    ∧ (metricValueIn (responseBuffer resp) metric ≠ "N/A" →
        containsCI metric.data (responseBuffer resp) = true)
    ∧ (∀ names, metric ∈ names →
        (metric, metricValueIn (responseBuffer resp) metric)
          ∈ extract_metrics_from_response resp names) := by
  refine ⟨?_, ?_, ?_⟩
  · intro h1 h2
    rw [metricValueIn, h1, h2]
  · intro hne
    cases hs1 : searchAll (tryPat1 metric.data) (responseBuffer resp) with
    | some g =>
      exact containsCI_of_searchAll metric.data _
        (fun s g h => (tryPat1_some h).2) _ _ hs1
    | none =>
      cases hs2 : searchAll (tryPat2 metric.data) (responseBuffer resp) with
      | some g =>
        exact containsCI_of_searchAll metric.data _
          (fun s g h => (tryPat2_some h).2) _ _ hs2
      | none =>
        exact absurd (by rw [metricValueIn, hs1, hs2]) hne
  · intro names hmem
    rw [extract_eq_map]
    exact List.mem_map.mpr ⟨metric, (mem_dedupFirst _ _).mpr hmem, rfl⟩

/-- C4 witness: the amended safety at the literal name `Revenue` and a
buffer in which it occurs with a value. -/
theorem C4_amended_literal_safety_witness :
    regexLiteralName "Revenue" = true
    ∧ metricValueIn (responseBuffer (some ⟨some [⟨some "Revenue: 5"⟩]⟩)) "Revenue" = "5"
    ∧ containsCI ("Revenue".data) (responseBuffer (some ⟨some [⟨some "Revenue: 5"⟩]⟩)) = true := by
  have h := C4_amended_literal_safety (some ⟨some [⟨some "Revenue: 5"⟩]⟩) "Revenue" (by decide)
  exact ⟨by decide, by decide, h.2.1 (by decide)⟩

/-! ### Claim C5 -/

/-- C5: the extractor's buffer is built from exactly the first five
snippets in received order (`search_results[:5]`), so for every snippet
list — in particular one with seven entries — the buffer, and with it
every extracted value for every metric-name list, is unchanged when
snippets beyond the fifth are dropped: text there can never influence any
extracted value. -/
theorem C5_first_five_snippets (rs : List SearchSnippet) (names : List String) :
    combinedText rs = combinedText (rs.take 5)
    ∧ extract_metrics_from_response (some ⟨some rs⟩) names
        = extract_metrics_from_response (some ⟨some (rs.take 5)⟩) names := by
  have hct : combinedText rs = combinedText (rs.take 5) := by
    rw [combinedText, combinedText]
    simp [List.take_take]
  exact ⟨hct, by simp [extract_metrics_from_response, hct]⟩

/-! ### Claim C6 -/

/-- C6 counterexample: the claim "exactly one of result/error is non-null,
with a non-null result on HTTP 200 for any body" is false at an HTTP 200
response whose body is the JSON literal `null`: `response.json()` yields
Python `None`, and `query` returns `(None, None)` — both components
null. -/
theorem C6_counterexample :
    query (.resp 200 (.val .jnull) "null") = (none, none) := rfl

/-- C6 (amended): the full outcome-to-components mapping of `query`.  A
transport exception yields a null result and a non-null error; an HTTP 200
response with a non-null JSON body yields that body as a non-null result
with null error; an HTTP 200 response whose body is the JSON literal
`null` is the single degenerate case with both components null; an HTTP
200 response with a malformed body yields a null result and a non-null
error; every non-200 status yields a null result and a non-null error.
Consequently exactly one component is non-null for every outcome except
the 200-with-JSON-`null` case. -/
theorem C6_amended_result_error_exclusivity :
    (∀ e, query (.exn e) = (none, some ("Error querying: " ++ e)))
    ∧ (∀ (j : JsonVal) (t : String), j ≠ .jnull →
        query (.resp 200 (.val j) t) = (some j, none))
    ∧ (∀ t, query (.resp 200 (.val .jnull) t) = (none, none))
    ∧ (∀ m t, query (.resp 200 (.malformed m) t)
        = (none, some ("Error querying: " ++ m)))
    ∧ (∀ (s : Nat) (b : BodyParse) (t : String), s ≠ 200 →
        (query (.resp s b t)).1 = none ∧ ((query (.resp s b t)).2).isSome = true)
    ∧ (∀ o : RemoteOutcome,
        ((query o).1.isSome = true ∧ (query o).2 = none)
        ∨ ((query o).1 = none ∧ (query o).2.isSome = true)
        ∨ ((query o).1 = none ∧ (query o).2 = none ∧ ∃ t, o = .resp 200 (.val .jnull) t)) := by
  refine ⟨fun e => rfl, ?_, fun t => rfl, fun m t => rfl, ?_, ?_⟩
  · intro j t hj
    cases j with
    | jnull => exact absurd rfl hj
    | jbool x => rfl
    | jnum x => rfl
    | jstr x => rfl
    | jarr x => rfl
    | jobj x => rfl
  · intro s b t hs
    by_cases h403 : s = 403
    · subst h403; exact ⟨rfl, rfl⟩
    · constructor
      · simp [query, hs, h403]
      · simp [query, hs, h403]
  · intro o
    cases o with
    | exn e => exact Or.inr (Or.inl ⟨rfl, rfl⟩)
    | resp s b t =>
      by_cases h200 : s = 200
      · subst h200
        cases b with
        | val j =>
          cases j with
          | jnull => exact Or.inr (Or.inr ⟨rfl, rfl, t, rfl⟩)
          | jbool x => exact Or.inl ⟨rfl, rfl⟩
          | jnum x => exact Or.inl ⟨rfl, rfl⟩
          | jstr x => exact Or.inl ⟨rfl, rfl⟩
          | jarr x => exact Or.inl ⟨rfl, rfl⟩
          | jobj x => exact Or.inl ⟨rfl, rfl⟩
        | malformed m => exact Or.inr (Or.inl ⟨rfl, rfl⟩)
      · by_cases h403 : s = 403
        · subst h403; exact Or.inr (Or.inl ⟨rfl, rfl⟩)
        · refine Or.inr (Or.inl ⟨?_, ?_⟩)
          · simp [query, h200, h403]
          · simp [query, h200, h403]

/-- C6 witness: the outcome-to-components mapping at a 200 response with a
non-null JSON body and at a 500 response. -/
theorem C6_amended_result_error_exclusivity_witness :
    query (.resp 200 (.val (.jstr "answer")) "body") = (some (.jstr "answer"), none)
    ∧ (query (.resp 500 (.val .jnull) "oops")).1 = none
    ∧ ((query (.resp 500 (.val .jnull) "oops")).2).isSome = true := by
  have h := C6_amended_result_error_exclusivity
  exact ⟨h.2.1 (.jstr "answer") "body" (fun he => JsonVal.noConfusion he),
    (h.2.2.2.2.1 500 (.val .jnull) "oops" (by decide)).1,
    (h.2.2.2.2.1 500 (.val .jnull) "oops" (by decide)).2⟩

/-! ### Claim C7 -/

theorem batchLoop_results (useV1 : Bool) :
    ∀ (files : List (String × RemoteOutcome)) (count0 : Nat) (up0 : List String),
      (batchLoop useV1 files count0 up0).1
        = files.map (fun f => uploadWith useV1 f.2 f.1) := by
  intro files
  induction files with
  | nil => intro count0 up0; rfl
  | cons f rest ih =>
    intro count0 up0
    cases f with
    | mk fn o =>
      rw [batchLoop]
      simp only [List.map_cons]
      rw [ih]

theorem batchLoop_count (useV1 : Bool) :
    ∀ (files : List (String × RemoteOutcome)) (count0 : Nat) (up0 : List String),
      (batchLoop useV1 files count0 up0).2.1
        = count0 + files.countP (fun f => (uploadWith useV1 f.2 f.1).1) := by
  intro files
  induction files with
  | nil => intro count0 up0; simp [batchLoop]
  | cons f rest ih =>
    intro count0 up0
    cases f with
    | mk fn o =>
      rw [batchLoop]
      simp only []
      rw [ih]
      rw [List.countP_cons]
      cases hb : (uploadWith useV1 o fn).1 <;> simp [hb] <;> omega

/-- C7: the batch upload is a strictly sequential fold that attempts every
file regardless of earlier failures — the per-file outcome list is exactly
the per-file upload results in order, the final success count adds one per
successful file, and in the concrete three-file scenario where the second
upload fails with a 403 while the first and third succeed, all three
outcomes are reported individually and the status line reads 2 out of 3. -/
theorem C7_batch_sequential (useV1 : Bool) (files : List (String × RemoteOutcome))
    (count0 : Nat) (up0 : List String) :
    ((batchLoop useV1 files count0 up0).1
        = files.map (fun f => uploadWith useV1 f.2 f.1)
      ∧ (batchLoop useV1 files 0 up0).2.1
        = files.countP (fun f => (uploadWith useV1 f.2 f.1).1))
    ∧ ((batchLoop false
          [("a.pdf", .resp 200 (.val .jnull) ""),
           ("b.pdf", .resp 403 (.val .jnull) "denied"),
           ("c.pdf", .resp 201 (.val .jnull) "")] 0 []).1
        = [(true, "Successfully uploaded: a.pdf"),
           (false, "403 Forbidden - Check corpus permissions for uploads. Response: denied"),
           (true, "Successfully uploaded: c.pdf")]
      ∧ batchStatusLine
          (batchLoop false
            [("a.pdf", .resp 200 (.val .jnull) ""),
             ("b.pdf", .resp 403 (.val .jnull) "denied"),
             ("c.pdf", .resp 201 (.val .jnull) "")] 0 []).2.1 3
        = "Upload complete! 2/3 files uploaded successfully.") := by
  refine ⟨⟨batchLoop_results useV1 files count0 up0, ?_⟩, by decide, by decide⟩
  rw [batchLoop_count]
  simp

/-! ### Claim C8 -/

/-- C8: every remote-facing operation propagates failure purely through its
returned pair.  Each operation is a total function of the remote outcome —
in particular a transport-level exception (the `exn` constructor, covering
everything the method's blanket `except` clause catches) is converted into
a returned `(ok, message)` or `(result, error)` pair rather than
propagating; and `test_connection` reports success exactly on an HTTP 200
response. -/
theorem C8_no_raise_return_pairs :
    (∀ o : RemoteOutcome, ((test_connection o).1 = true ↔ ∃ b t, o = .resp 200 b t))
    ∧ (∀ e, test_connection (.exn e) = (false, "Connection error: " ++ e))
    ∧ (∀ e fn, upload_file (.exn e) fn = (false, "Error uploading " ++ fn ++ ": " ++ e))
    ∧ (∀ e fn, upload_file_v1 (.exn e) fn = (false, "Error uploading " ++ fn ++ ": " ++ e))
    ∧ (∀ e, query (.exn e) = (none, some ("Error querying: " ++ e)))
    ∧ (∀ e, list_documents (.exn e) = (none, some ("Error listing documents: " ++ e))) := by
  refine ⟨?_, fun e => rfl, fun e fn => rfl, fun e fn => rfl, fun e => rfl, fun e => rfl⟩
  intro o
  cases o with
  | exn e => simp [test_connection]
  | resp s b t =>
    by_cases h : s = 200
    · subst h
      constructor
      · intro _; exact ⟨b, t, rfl⟩
      · intro _; rfl
    · simp only [test_connection, h, if_false]
      constructor
      · intro hc
        exfalso
        revert hc
        split
        · intro hc; cases hc
        · split
          · intro hc; cases hc
          · split
            · intro hc; cases hc
            · intro hc; cases hc
      · rintro ⟨b2, t2, he⟩
        cases he
        exact absurd rfl h

/-! ### Claim C9 -/

/-- C9: the extractor is stateless and idempotent.  With the ambient
session state threaded explicitly (`extractCall`; the function body reads
and writes no ambient state), a call leaves the state unchanged, its
result does not depend on the incoming state, and a second call on
identical response data and metric-name list — in particular one run in
the state left behind by the first — returns the identical mapping. -/
theorem C9_extract_stateless_idempotent (σ1 σ2 : SessionState)
    (resp : Option QueryResponseData) (names : List String) :
    (extractCall σ1 resp names).2 = σ1
    ∧ (extractCall σ1 resp names).1 = (extractCall σ2 resp names).1
    ∧ (extractCall (extractCall σ1 resp names).2 resp names).1
        = (extractCall σ1 resp names).1 :=
  ⟨rfl, rfl, rfl⟩

/-! ### Claim C10 -/

/-- C10 counterexample: the claim "every value of the returned mapping is
`'N/A'` or a separator-free digit string with optional two-digit decimal
part, for every metric name" is false at the name `"(Total)"`: it is a
valid regex but not a literal, its group shifts `group(1)` onto the name's
own parenthesised group (the faithful model of the built pattern for this
name is `tryPat1GroupShiftTotal`), and on a buffer containing `Total 5`
the recorded value is `"Total"` — neither the sentinel nor digit-shaped. -/
theorem C10_counterexample :
    regexLiteralName "(Total)" = false
    ∧ regexParensOk (buildPattern1 "(Total)") = true
    ∧ extractValueForParenTotal (responseBuffer (some ⟨some [⟨some "Total 5"⟩]⟩)) = "Total"
    ∧ valueShape (("Total").data) = false
    ∧ ("Total" : String) ≠ "N/A" := by
  refine ⟨by decide, by decide, by decide, by decide, by decide⟩

/-- C10 (amended): for metric-name lists made of regex-literal names (the
domain on which the built pattern matches the name literally), the
returned mapping's key list is exactly the requested names (every
requested name present, no extra keys — as a set; duplicates collapse to
one dict key), including for a null response, a response lacking
`search_results`, and an empty name list; and every value is the sentinel
`"N/A"` or a digit string with an optional two-digit decimal part and no
comma separators. -/
theorem C10_amended_keyset_shape (resp : Option QueryResponseData) (names : List String)
    (hlit : ∀ n ∈ names, regexLiteralName n = true) :
    (∀ x, x ∈ (extract_metrics_from_response resp names).map Prod.fst ↔ x ∈ names)
    ∧ (∀ pr ∈ extract_metrics_from_response resp names,
        pr.2 = "N/A" ∨ valueShape pr.2.data = true) := by
  constructor
  · intro x
    rw [extract_eq_map, List.map_map]
    rw [show (Prod.fst ∘ fun n => (n, metricValueIn (responseBuffer resp) n))
        = fun n : String => n from rfl]
    rw [List.map_id']
    exact mem_dedupFirst names x
  · intro pr hpr
    rw [extract_eq_map] at hpr
    rcases List.mem_map.mp hpr with ⟨n, hn, rfl⟩
    simp only []
    cases hs1 : searchAll (tryPat1 n.data) (responseBuffer resp) with
    | some g =>
      right
      rcases searchAll_shape _ (fun s g h => (tryPat1_some h).1) _ _ hs1 with ⟨s', r, hp⟩
      have hshape := parseNum_shape hp
      rw [metricValueIn, hs1]
      simpa using hshape
    | none =>
      cases hs2 : searchAll (tryPat2 n.data) (responseBuffer resp) with
      | some g =>
        right
        rcases searchAll_shape _ (fun s g h => (tryPat2_some h).1) _ _ hs2 with ⟨s', r, hp⟩
        have hshape := parseNum_shape hp
        rw [metricValueIn, hs1, hs2]
        simpa using hshape
      | none =>
        left
        rw [metricValueIn, hs1, hs2]

/-- C10 witness: the amended key-set and value-shape property at a null
response with two literal names, and at a response with a matching value. -/
theorem C10_amended_keyset_shape_witness :
    ((extract_metrics_from_response none ["Revenue", "Net Profit"]).map Prod.fst
        = ["Revenue", "Net Profit"])
    ∧ ("Revenue" ∈ (extract_metrics_from_response none ["Revenue", "Net Profit"]).map Prod.fst
        ↔ "Revenue" ∈ ["Revenue", "Net Profit"])
    ∧ (∀ pr ∈ extract_metrics_from_response none ["Revenue", "Net Profit"],
        pr.2 = "N/A" ∨ valueShape pr.2.data = true) := by
  have h := C10_amended_keyset_shape none ["Revenue", "Net Profit"]
    (by decide)
  exact ⟨by decide, h.1 "Revenue", h.2⟩

end VectaraApp
